import Mathlib

/-!
Verification of the frame-conversion and asynchronous-dispatch subsystem of
the NDIOutput OpenFX plugin (src/NDIOutputPlugin.cpp).

The C++ float arithmetic is modelled over ℚ (exact arithmetic on the decimal
constants that appear in the source); `static_cast<uint8_t>` and
`static_cast<uint16_t>` on the nonnegative in-range values produced by the
conversions are modelled by `natFloor` (truncation toward zero equals floor
for nonnegative arguments).  Pixel buffers are modelled as index functions
`ℕ → ℚ`; the conversion routines are modelled by the exact sequence of
stores they perform (value streams plus the destination indices of those
stores), translated loop by loop from the source.
-/

set_option maxRecDepth 100000

namespace NDIOutput

/-- Truncation of a nonnegative rational to a natural number, the model of
the C++ casts to uint8_t and uint16_t on nonnegative in-range values. -/
def natFloor (x : ℚ) : ℕ := (x.num / (x.den : ℤ)).toNat

/-- The model of the C++ clamp `std::max(0.0f, std::min(1.0f, v))`. -/
def clamp01 (x : ℚ) : ℚ := max 0 (min 1 x)

theorem natFloor_eq_floor (x : ℚ) : (natFloor x : ℤ) = ⌊x⌋ ⊔ 0 := by
  rw [natFloor, ← Rat.floor_def, Int.toNat_eq_max]

theorem natFloor_le (x : ℚ) (n : ℕ) (h : x ≤ (n : ℚ)) : natFloor x ≤ n := by
  have h1 : ⌊x⌋ ≤ (n : ℤ) := by exact_mod_cast Int.floor_le_floor h |>.trans_eq (by simp)
  have h2 : (natFloor x : ℤ) ≤ (n : ℤ) := by
    rw [natFloor_eq_floor]
    exact sup_le h1 (by positivity)
  exact_mod_cast h2

theorem le_natFloor (m : ℕ) (x : ℚ) (h : (m : ℚ) ≤ x) : m ≤ natFloor x := by
  have h1 : (m : ℤ) ≤ ⌊x⌋ := by
    have := Int.floor_le_floor h
    simpa using this
  have h2 : (m : ℤ) ≤ (natFloor x : ℤ) := by
    rw [natFloor_eq_floor]
    exact le_sup_of_le_left h1
  exact_mod_cast h2

theorem clamp01_nonneg (x : ℚ) : 0 ≤ clamp01 x := le_max_left _ _

theorem clamp01_le_one (x : ℚ) : clamp01 x ≤ 1 :=
  max_le (by norm_num) (min_le_left _ _)

/-! ## CPU RGBA to UYVY conversion (convertRGBAToUYVY_CPU, lines 449-499)

The loop is `for (y = 0; y < height; ++y) for (x = 0; x < width; x += 2)`,
so a row processes pair starts `2*p` for `p < (width+1)/2`.  Each iteration
stores the four bytes U, Y1, V, Y2 at destination indices
`(y*width+x)*2 .. (y*width+x)*2+3`. -/

/-- Number of x iterations of a row of the conversion loops, one per
horizontal pixel pair, with an extra iteration for an odd trailing column. -/
def pairCount (width : ℕ) : ℕ := (width + 1) / 2

/-- The four bytes U, Y1, V, Y2 stored by one iteration of the CPU
RGBA-to-UYVY loop body, translated term by term from the source
(decimal float constants written as exact fractions). -/
def uyvyPairCPU (src : ℕ → ℚ) (width height y x : ℕ) : List ℕ :=
  let srcRow := height - 1 - y
  let srcIdx1 := (srcRow * width + x) * 4
  let srcIdx2 := (srcRow * width + x + 1) * 4
  let r1 := clamp01 (src (srcIdx1 + 0))
  let g1 := clamp01 (src (srcIdx1 + 1))
  let b1 := clamp01 (src (srcIdx1 + 2))
  let r2 := if x + 1 < width then clamp01 (src (srcIdx2 + 0)) else r1
  let g2 := if x + 1 < width then clamp01 (src (srcIdx2 + 1)) else g1
  let b2 := if x + 1 < width then clamp01 (src (srcIdx2 + 2)) else b1
  let y1 := 2126/10000 * r1 + 7152/10000 * g1 + 722/10000 * b1
  let y2 := 2126/10000 * r2 + 7152/10000 * g2 + 722/10000 * b2
  let u := -(1146/10000) * ((r1 + r2) * (1/2)) - 3854/10000 * ((g1 + g2) * (1/2))
             + 5000/10000 * ((b1 + b2) * (1/2))
  let v := 5000/10000 * ((r1 + r2) * (1/2)) - 4542/10000 * ((g1 + g2) * (1/2))
             - 458/10000 * ((b1 + b2) * (1/2))
  [natFloor ((u + 1/2) * 255), natFloor (y1 * 255),
   natFloor ((v + 1/2) * 255), natFloor (y2 * 255)]

/-- The stream of bytes stored by convertRGBAToUYVY_CPU, in store order
(output rows top to bottom).  For even width the stores hit consecutive
destination indices 0, 1, 2, ..., so this stream is exactly the contents of
the destination buffer. -/
def convertRGBAToUYVY_CPU (src : ℕ → ℚ) (width height : ℕ) : List ℕ :=
  (List.range height).flatMap fun y =>
    (List.range (pairCount width)).flatMap fun p =>
      uyvyPairCPU src width height y (2 * p)

/-- The destination byte indices of the four stores of one iteration of the
CPU RGBA-to-UYVY loop body: `dstIdx = (y*width+x)*2` through `dstIdx+3`. -/
def uyvyPairIndices (width y x : ℕ) : List ℕ :=
  [(y * width + x) * 2, (y * width + x) * 2 + 1,
   (y * width + x) * 2 + 2, (y * width + x) * 2 + 3]

/-- All destination byte indices written by convertRGBAToUYVY_CPU, in store
order.  The destination buffer is resized to `width*height*2` bytes before
the loops run. -/
def uyvyWriteIndices (width height : ℕ) : List ℕ :=
  (List.range height).flatMap fun y =>
    (List.range (pairCount width)).flatMap fun p =>
      uyvyPairIndices width y (2 * p)

/-! ## Specification-side restatement of the UYVY conversion (for claim C4)

These definitions follow the wording of the specification: per-pixel Rec.709
luma, chroma from the averaged pair, bytes packed U, Y1, V, Y2, output rows
top to bottom reading the input bottom to top, odd trailing column
duplicating the last pixel. -/

/-- Rec.709 luma Y = 0.2126 R + 0.7152 G + 0.0722 B, as stated by the spec. -/
def lumaRec709 (r g b : ℚ) : ℚ := 2126/10000 * r + 7152/10000 * g + 722/10000 * b

/-- Rec.709 chroma U = -0.1146 R - 0.3854 G + 0.5 B, as stated by the spec. -/
def chromaURec709 (r g b : ℚ) : ℚ := -(1146/10000) * r - 3854/10000 * g + 5000/10000 * b

/-- Rec.709 chroma V = 0.5 R - 0.4542 G - 0.0458 B, as stated by the spec
(the literal spec text reads "-00458B", an evident typo for -0.0458 B). -/
def chromaVRec709 (r g b : ℚ) : ℚ := 5000/10000 * r - 4542/10000 * g - 458/10000 * b

/-- Channel `c` of the input pixel at column `x` of output row `y`, clamped
to [0,1]; the input row is read bottom to top (vertical flip). -/
def specPixel (src : ℕ → ℚ) (width height y x c : ℕ) : ℚ :=
  clamp01 (src (((height - 1 - y) * width + x) * 4 + c))

/-- The four bytes of one pixel pair as the spec words them: U, Y1, V, Y2,
luma per pixel, chroma from the averaged pair, scaled to [0,255], odd
trailing column duplicating the last pixel. -/
def uyvyPairSpec (src : ℕ → ℚ) (width height y x : ℕ) : List ℕ :=
  let x2 := if x + 1 < width then x + 1 else x
  let r1 := specPixel src width height y x 0
  let g1 := specPixel src width height y x 1
  let b1 := specPixel src width height y x 2
  let r2 := specPixel src width height y x2 0
  let g2 := specPixel src width height y x2 1
  let b2 := specPixel src width height y x2 2
  let rA := (r1 + r2) / 2
  let gA := (g1 + g2) / 2
  let bA := (b1 + b2) / 2
  [natFloor ((chromaURec709 rA gA bA + 1/2) * 255),
   natFloor (lumaRec709 r1 g1 b1 * 255),
   natFloor ((chromaVRec709 rA gA bA + 1/2) * 255),
   natFloor (lumaRec709 r2 g2 b2 * 255)]

/-- The byte stream the spec describes for the UYVY conversion. -/
def convertRGBAToUYVY_spec (src : ℕ → ℚ) (width height : ℕ) : List ℕ :=
  (List.range height).flatMap fun y =>
    (List.range (pairCount width)).flatMap fun p =>
      uyvyPairSpec src width height y (2 * p)

/-- C4: for every input frame, the CPU RGBA-to-UYVY conversion clamps each
RGB channel to [0,1], computes per-pixel Rec.709 luma and U, V from the
averaged pair with the stated coefficients, packs the bytes in the order
U, Y1, V, Y2 scaled to [0,255], and writes output rows top to bottom while
reading input rows bottom to top: the byte stream of the code equals the
byte stream the spec describes, for every source and dimensions. -/
theorem convertRGBAToUYVY_CPU_matches_spec (src : ℕ → ℚ) (width height : ℕ) :
    convertRGBAToUYVY_CPU src width height = convertRGBAToUYVY_spec src width height := by
  unfold convertRGBAToUYVY_CPU convertRGBAToUYVY_spec
  apply congrArg
  funext y
  apply congrArg
  funext p
  unfold uyvyPairCPU uyvyPairSpec specPixel lumaRec709 chromaURec709 chromaVRec709
  simp only []
  split_ifs with h <;>
    simp only [Nat.add_assoc, List.cons.injEq, and_true, true_and] <;>
    exact ⟨congrArg natFloor (by ring), congrArg natFloor (by ring)⟩

/-- C3 (failing part): the claim that every 4-byte store of the UYVY
conversion stays inside the `width*height*2`-byte destination buffer fails
for odd widths.  For width = 1, height = 1 the buffer is resized to 2 bytes
but the loop body stores at destination indices 0, 1, 2 and 3: the stores
at indices 2 and 3 are out of bounds (a heap buffer overflow in the code,
since the Y2 and V stores are not guarded by the `x + 1 < width` test that
guards the corresponding loads). -/
theorem uyvy_write_out_of_bounds_at_1x1 :
    uyvyWriteIndices 1 1 = [0, 1, 2, 3] ∧ 3 ∈ uyvyWriteIndices 1 1 ∧ ¬ 3 < 1 * 1 * 2 := by
  refine ⟨rfl, ?_, by decide⟩
  decide

/-- C9: the 2 by 2 all-white RGBA frame (every channel 1) converts to UYVY
luma bytes of exactly 255 for every Y sample and chroma bytes 127 for every
U and V sample, which is mid-chroma 128 within rounding (the code truncates
(0 + 0.5) * 255 = 127.5 to 127). -/
theorem uyvy_white_2x2_bytes :
    convertRGBAToUYVY_CPU (fun _ => 1) 2 2 = [127, 255, 127, 255, 127, 255, 127, 255] ∧
    ((128 : ℤ) - 127).natAbs ≤ 1 := by
  constructor
  · with_unfolding_all decide
  · decide

/-! ## HDR 16-bit planar conversion (CPU fallback inside sendHDRFrame, lines 768-827)

The destination is a buffer of `width*height*2` 16-bit samples: the Y plane
at indices `0 .. width*height-1` followed by the interleaved U/V plane at
`width*height + ...` (in the code, `uvPlane = dstData + width*height`).
Each store is modelled as a tagged write (which plane, absolute 16-bit
sample index, 16-bit value). -/

/-- A 16-bit sample store of the HDR conversion: plane, index, value. -/
inductive PlaneWrite where
  | luma (idx : ℕ) (val : ℕ)
  | chroma (idx : ℕ) (val : ℕ)
deriving DecidableEq

/-- The 16-bit luma sample of the HDR conversion:
`4096 + y * 56064` with Rec.2020 luma, truncated (lines 793 and 807). -/
def hdrLumaVal (r g b : ℚ) : ℕ :=
  natFloor (4096 + (2627/10000 * r + 6780/10000 * g + 593/10000 * b) * 56064)

/-- The 16-bit U sample of the HDR conversion: `32768 + u * 28672` with
Rec.2020 chroma U of the averaged pair, truncated (lines 801 and 809). -/
def hdrUVal (avgR avgG avgB : ℚ) : ℕ :=
  natFloor (32768 + (-(1396/10000) * avgR - 3604/10000 * avgG + 5000/10000 * avgB) * 28672)

/-- The 16-bit V sample of the HDR conversion: `32768 + v * 28672` with
Rec.2020 chroma V of the averaged pair, truncated (lines 802 and 810). -/
def hdrVVal (avgR avgG avgB : ℚ) : ℕ :=
  natFloor (32768 + (5000/10000 * avgR - 4598/10000 * avgG - 402/10000 * avgB) * 28672)

/-- The stores of one iteration of the HDR conversion loop body: the Y1
store, the guarded Y2 store, and the interleaved U and V stores at
`uvPlane + uvIdx*2` and `uvPlane + uvIdx*2 + 1`. -/
def hdrPairWrites (src : ℕ → ℚ) (width height y x : ℕ) : List PlaneWrite :=
  let srcRow := height - 1 - y
  let srcIdx1 := (srcRow * width + x) * 4
  let srcIdx2 := (srcRow * width + x + 1) * 4
  let r1 := clamp01 (src (srcIdx1 + 0))
  let g1 := clamp01 (src (srcIdx1 + 1))
  let b1 := clamp01 (src (srcIdx1 + 2))
  let r2 := if x + 1 < width then clamp01 (src (srcIdx2 + 0)) else r1
  let g2 := if x + 1 < width then clamp01 (src (srcIdx2 + 1)) else g1
  let b2 := if x + 1 < width then clamp01 (src (srcIdx2 + 2)) else b1
  let avgR := (r1 + r2) * (1/2)
  let avgG := (g1 + g2) * (1/2)
  let avgB := (b1 + b2) * (1/2)
  let uvIdx := (y * width + x) / 2
  [PlaneWrite.luma (y * width + x) (hdrLumaVal r1 g1 b1)] ++
    (if x + 1 < width then [PlaneWrite.luma (y * width + x + 1) (hdrLumaVal r2 g2 b2)] else []) ++
    [PlaneWrite.chroma (width * height + uvIdx * 2) (hdrUVal avgR avgG avgB),
     PlaneWrite.chroma (width * height + uvIdx * 2 + 1) (hdrVVal avgR avgG avgB)]

/-- All 16-bit sample stores of the CPU HDR conversion, in store order. -/
def sendHDRFrameWrites (src : ℕ → ℚ) (width height : ℕ) : List PlaneWrite :=
  (List.range height).flatMap fun y =>
    (List.range (pairCount width)).flatMap fun p =>
      hdrPairWrites src width height y (2 * p)

theorem hdrLumaVal_all (x y z : ℚ) :
    4096 ≤ hdrLumaVal (clamp01 x) (clamp01 y) (clamp01 z) ∧
    hdrLumaVal (clamp01 x) (clamp01 y) (clamp01 z) ≤ 60160 := by
  have hx := And.intro (clamp01_nonneg x) (clamp01_le_one x)
  have hy := And.intro (clamp01_nonneg y) (clamp01_le_one y)
  have hz := And.intro (clamp01_nonneg z) (clamp01_le_one z)
  unfold hdrLumaVal
  constructor
  · apply le_natFloor
    push_cast
    nlinarith
  · apply natFloor_le
    push_cast
    nlinarith

theorem hdrUVal_all (x1 x2 y1 y2 z1 z2 : ℚ) :
    4096 ≤ hdrUVal ((clamp01 x1 + clamp01 x2) * (1/2)) ((clamp01 y1 + clamp01 y2) * (1/2))
        ((clamp01 z1 + clamp01 z2) * (1/2)) ∧
    hdrUVal ((clamp01 x1 + clamp01 x2) * (1/2)) ((clamp01 y1 + clamp01 y2) * (1/2))
        ((clamp01 z1 + clamp01 z2) * (1/2)) ≤ 61440 ∧
    18432 ≤ hdrUVal ((clamp01 x1 + clamp01 x2) * (1/2)) ((clamp01 y1 + clamp01 y2) * (1/2))
        ((clamp01 z1 + clamp01 z2) * (1/2)) ∧
    hdrUVal ((clamp01 x1 + clamp01 x2) * (1/2)) ((clamp01 y1 + clamp01 y2) * (1/2))
        ((clamp01 z1 + clamp01 z2) * (1/2)) ≤ 47104 := by
  have ha := And.intro (clamp01_nonneg x1) (clamp01_le_one x1)
  have hb := And.intro (clamp01_nonneg x2) (clamp01_le_one x2)
  have hc := And.intro (clamp01_nonneg y1) (clamp01_le_one y1)
  have hd := And.intro (clamp01_nonneg y2) (clamp01_le_one y2)
  have he := And.intro (clamp01_nonneg z1) (clamp01_le_one z1)
  have hf := And.intro (clamp01_nonneg z2) (clamp01_le_one z2)
  unfold hdrUVal
  refine ⟨?_, ?_, ?_, ?_⟩ <;>
    first
      | (apply le_natFloor; push_cast; nlinarith)
      | (apply natFloor_le; push_cast; nlinarith)

theorem hdrVVal_all (x1 x2 y1 y2 z1 z2 : ℚ) :
    4096 ≤ hdrVVal ((clamp01 x1 + clamp01 x2) * (1/2)) ((clamp01 y1 + clamp01 y2) * (1/2))
        ((clamp01 z1 + clamp01 z2) * (1/2)) ∧
    hdrVVal ((clamp01 x1 + clamp01 x2) * (1/2)) ((clamp01 y1 + clamp01 y2) * (1/2))
        ((clamp01 z1 + clamp01 z2) * (1/2)) ≤ 61440 ∧
    18432 ≤ hdrVVal ((clamp01 x1 + clamp01 x2) * (1/2)) ((clamp01 y1 + clamp01 y2) * (1/2))
        ((clamp01 z1 + clamp01 z2) * (1/2)) ∧
    hdrVVal ((clamp01 x1 + clamp01 x2) * (1/2)) ((clamp01 y1 + clamp01 y2) * (1/2))
        ((clamp01 z1 + clamp01 z2) * (1/2)) ≤ 47104 := by
  have ha := And.intro (clamp01_nonneg x1) (clamp01_le_one x1)
  have hb := And.intro (clamp01_nonneg x2) (clamp01_le_one x2)
  have hc := And.intro (clamp01_nonneg y1) (clamp01_le_one y1)
  have hd := And.intro (clamp01_nonneg y2) (clamp01_le_one y2)
  have he := And.intro (clamp01_nonneg z1) (clamp01_le_one z1)
  have hf := And.intro (clamp01_nonneg z2) (clamp01_le_one z2)
  unfold hdrVVal
  refine ⟨?_, ?_, ?_, ?_⟩ <;>
    first
      | (apply le_natFloor; push_cast; nlinarith)
      | (apply natFloor_le; push_cast; nlinarith)

/-- C5: every luma sample stored by the HDR 16-bit planar conversion lies
in the limited range [4096, 60160] and goes to the Y plane (index below
`width*height`); every chroma sample lies in [18432, 47104], a range
centered at 32768 and contained in [4096, 61440], and goes to the
interleaved U/V plane that follows the Y plane (index at least
`width*height`), at half horizontal resolution (4:2:2). -/
theorem sendHDRFrame_write_bounds (src : ℕ → ℚ) (width height : ℕ) :
    (sendHDRFrameWrites src width height).Forall fun e =>
      match e with
      | .luma i v => i < width * height ∧ 4096 ≤ v ∧ v ≤ 60160
      | .chroma i v => width * height ≤ i ∧ 4096 ≤ v ∧ v ≤ 61440 ∧
          18432 ≤ v ∧ v ≤ 47104 := by
  rw [List.forall_iff_forall_mem]
  intro e he
  rw [sendHDRFrameWrites, List.mem_flatMap] at he
  obtain ⟨y, hy, he⟩ := he
  rw [List.mem_flatMap] at he
  obtain ⟨p, hp, he⟩ := he
  rw [List.mem_range] at hy hp
  have hx : 2 * p < width := by
    unfold pairCount at hp
    omega
  rw [hdrPairWrites] at he
  have hrow : ∀ k, k < width → y * width + k < width * height := by
    intro k hk
    have h2 : (y + 1) * width ≤ height * width := Nat.mul_le_mul_right _ hy
    rw [Nat.add_mul, one_mul] at h2
    have h3 : height * width = width * height := Nat.mul_comm _ _
    omega
  have hyw : y * width + 2 * p < width * height := hrow _ hx
  have hle : ∀ k : ℕ, width * height ≤ width * height + k := fun k => Nat.le_add_right _ _
  split_ifs at he with hw
  all_goals
    simp only [List.mem_append, List.mem_singleton, List.mem_cons,
      List.not_mem_nil, or_false, false_or] at he
  · rcases he with (h | h) | h | h <;> subst h
    · exact ⟨hyw, hdrLumaVal_all _ _ _⟩
    · exact ⟨hrow _ hw, hdrLumaVal_all _ _ _⟩
    · exact ⟨hle _, hdrUVal_all _ _ _ _ _ _⟩
    · exact ⟨by omega, hdrVVal_all _ _ _ _ _ _⟩
  · rcases he with h | h | h <;> subst h
    · exact ⟨hyw, hdrLumaVal_all _ _ _⟩
    · exact ⟨hle _, hdrUVal_all _ _ _ _ _ _⟩
    · exact ⟨by omega, hdrVVal_all _ _ _ _ _ _⟩

/-! ## GPU dispatch with CPU fallback (convertRGBAToUYVY_GPU, lines 365-447)

The vendor conversion kernel is an external call that either fills the
destination buffer and reports success or reports failure; it is modelled
as an oracle returning `Option (List ℕ)` (`none` models a call that
returned false).  The wrapper returns the produced buffer together with the
GPU context as it stands after the call; the source never modifies
`gpuContext->initialized` on a conversion failure. -/

/-- The GPU context of the plugin instance: the platform handle is opaque at
this layer, only the `initialized` flag steers the dispatch. -/
structure GPUContext where
  initialized : Bool
deriving DecidableEq

/-- The dispatch of convertRGBAToUYVY_GPU: no context or an uninitialized
context falls straight to the CPU routine; otherwise the GPU kernel is
attempted and a failure falls back to the CPU routine on the same input.
The returned context models the state of `data->gpuContext` after the call. -/
def convertRGBAToUYVY_GPU (gpuConvert : (ℕ → ℚ) → ℕ → ℕ → Option (List ℕ))
    (ctx : Option GPUContext) (src : ℕ → ℚ) (width height : ℕ) :
    List ℕ × Option GPUContext :=
  match ctx with
  | none => (convertRGBAToUYVY_CPU src width height, none)
  | some c =>
    if c.initialized then
      match gpuConvert src width height with
      | some out => (out, some c)
      | none => (convertRGBAToUYVY_CPU src width height, some c)
    else (convertRGBAToUYVY_CPU src width height, some c)

/-- A GPU conversion entry point that returns false for every call. -/
def failingGPUConvert : (ℕ → ℚ) → ℕ → ℕ → Option (List ℕ) := fun _ _ _ => none

/-- C2: when the GPU conversion entry point fails for every call, the
GPU-dispatch path produces exactly the bytes of the direct CPU conversion
of the same input, and it returns the GPU context unchanged (an initialized
context stays initialized), so a later frame with a succeeding kernel
still takes the GPU path and uses the kernel output. -/
theorem gpu_fallback_matches_cpu (ctx : Option GPUContext) (src : ℕ → ℚ) (width height : ℕ) :
    convertRGBAToUYVY_GPU failingGPUConvert ctx src width height =
      (convertRGBAToUYVY_CPU src width height, ctx) ∧
    (∀ out : List ℕ,
      convertRGBAToUYVY_GPU (fun _ _ _ => some out) (some ⟨true⟩) src width height =
        (out, some ⟨true⟩)) := by
  constructor
  · cases ctx with
    | none => rfl
    | some c =>
      cases hc : c.initialized <;>
        simp [convertRGBAToUYVY_GPU, failingGPUConvert, hc]
  · intro out
    rfl

/-! ## Frame dispatch control flow (sendSDRFrame, sendHDRFrame, sendNDIFrame)

The per-frame effects on the calling thread are modelled as a trace:
which conversion runs, whether anything is appended to the frame queue,
and which transport send primitive is invoked (NDIlib_send_send_video_v2
is `sendSync`, NDIlib_send_send_video_async_v2 is `sendAsync`).  Frame
dimensions are carried verbatim as signed integers, exactly as the int
parameters of the source functions.  `hasImage` models the
`imageData != nullptr` test, `initSucceeds` the outcome of the
initializeNDI attempt made by sendNDIFrame when NDI is not yet running. -/

/-- The per-frame configuration fields as read by the send paths. -/
structure Config where
  enabled : Bool
  ndiInitialized : Bool
  hdrEnabled : Bool
  gpuAcceleration : Bool
  asyncSending : Bool
  optimalFormat : Bool
deriving DecidableEq

/-- One observable action of a send path on the calling thread. -/
inductive Effect where
  | convertUYVY (w h : Int)
  | convertRGBA8 (w h : Int)
  | convertHDR (w h : Int)
  | enqueue (w h : Int)
  | sendSync (w h : Int)
  | sendAsync (w h : Int)
deriving DecidableEq

/-- Trace of sendSDRFrame (lines 850-918): guard on enabled, initialized
and non-null image; UYVY or RGBA8 conversion on the calling thread; then
the async send primitive when asyncSending is set, the sync one otherwise.
Nothing is ever appended to the frame queue. -/
def sendSDRFrameEffects (cfg : Config) (hasImage : Bool) (w h : Int) : List Effect :=
  if !cfg.enabled || !cfg.ndiInitialized || !hasImage then []
  else
    (if cfg.optimalFormat then [Effect.convertUYVY w h] else [Effect.convertRGBA8 w h]) ++
    (if cfg.asyncSending then [Effect.sendAsync w h] else [Effect.sendSync w h])

/-- Trace of sendHDRFrame (lines 705-848): same guard, HDR conversion on
the calling thread, then always the synchronous send primitive (line 847). -/
def sendHDRFrameEffects (cfg : Config) (hasImage : Bool) (w h : Int) : List Effect :=
  if !cfg.enabled || !cfg.ndiInitialized || !hasImage then []
  else [Effect.convertHDR w h, Effect.sendSync w h]

/-- Trace of sendNDIFrame (lines 920-936): attempt initialization when NDI
is down and the output is enabled (returning with no effect when it fails),
then dispatch on hdrEnabled.  Neither this function nor the two send paths
inspects width or height. -/
def sendNDIFrameEffects (cfg : Config) (initSucceeds hasImage : Bool) (w h : Int) : List Effect :=
  if !cfg.ndiInitialized && cfg.enabled then
    if initSucceeds then
      if cfg.hdrEnabled then
        sendHDRFrameEffects { cfg with ndiInitialized := true } hasImage w h
      else
        sendSDRFrameEffects { cfg with ndiInitialized := true } hasImage w h
    else []
  else
    if cfg.hdrEnabled then sendHDRFrameEffects cfg hasImage w h
    else sendSDRFrameEffects cfg hasImage w h

/-- C6: a frame arriving while the enabled flag is false produces an empty
effect trace: in particular neither the synchronous nor the asynchronous
transport send primitive is invoked, on both the SDR and the HDR path. -/
theorem disabled_sends_nothing (cfg : Config) (initSucceeds hasImage : Bool) (w h : Int) :
    sendNDIFrameEffects { cfg with enabled := false } initSucceeds hasImage w h = [] ∧
    Effect.sendSync w h ∉ sendNDIFrameEffects { cfg with enabled := false } initSucceeds hasImage w h ∧
    Effect.sendAsync w h ∉ sendNDIFrameEffects { cfg with enabled := false } initSucceeds hasImage w h := by
  simp [sendNDIFrameEffects, sendHDRFrameEffects, sendSDRFrameEffects]

/-- C10: the asynchronous send primitive is invoked exactly on SDR frames
with async-sending enabled (and the frame actually flowing); the
synchronous primitive is invoked exactly when a frame flows and either HDR
mode is on (HDR frames are always sent synchronously, whatever the
async-sending setting) or async-sending is off. -/
theorem hdr_always_sync (cfg : Config) (initSucceeds hasImage : Bool) (w h : Int) :
    (Effect.sendAsync w h ∈ sendNDIFrameEffects cfg initSucceeds hasImage w h ↔
      cfg.enabled = true ∧ (cfg.ndiInitialized = true ∨ initSucceeds = true) ∧
        hasImage = true ∧ cfg.hdrEnabled = false ∧ cfg.asyncSending = true) ∧
    (Effect.sendSync w h ∈ sendNDIFrameEffects cfg initSucceeds hasImage w h ↔
      cfg.enabled = true ∧ (cfg.ndiInitialized = true ∨ initSucceeds = true) ∧
        hasImage = true ∧ (cfg.hdrEnabled = true ∨ cfg.asyncSending = false)) := by
  obtain ⟨e, ni, hdr, gpu, asy, opt⟩ := cfg
  cases e <;> cases ni <;> cases hdr <;> cases asy <;> cases opt <;>
    cases initSucceeds <;> cases hasImage <;>
    simp [sendNDIFrameEffects, sendHDRFrameEffects, sendSDRFrameEffects]

/-- C1 (failing part): with async-sending enabled (enabled output, NDI
initialized, SDR, optimal format, image present) the frame handler does NOT
merely enqueue the frame: on the calling thread it runs the pixel
conversion and invokes the asynchronous transport send primitive, and it
appends nothing to the frame queue. -/
theorem async_path_converts_and_sends_on_caller :
    Effect.convertUYVY 1920 1080 ∈
      sendNDIFrameEffects ⟨true, true, false, true, true, true⟩ true true 1920 1080 ∧
    Effect.sendAsync 1920 1080 ∈
      sendNDIFrameEffects ⟨true, true, false, true, true, true⟩ true true 1920 1080 ∧
    ∀ w h : Int, Effect.enqueue w h ∉
      sendNDIFrameEffects ⟨true, true, false, true, true, true⟩ true true 1920 1080 := by
  refine ⟨by decide, by decide, ?_⟩
  intro w h
  simp [sendNDIFrameEffects, sendSDRFrameEffects]

/-- C1 (amended): no send path ever appends to the frame queue, and in the
async SDR configuration the calling thread itself performs the UYVY
conversion and the asynchronous transport send (and never the synchronous
one); asynchrony comes from the transport primitive, not from the queue. -/
theorem async_path_no_enqueue (cfg : Config) (initSucceeds : Bool) (w h : Int) :
    (∀ w2 h2 : Int, Effect.enqueue w2 h2 ∉
        sendNDIFrameEffects cfg initSucceeds true w h) ∧
    (Effect.convertUYVY w h ∈
        sendNDIFrameEffects ⟨true, true, false, cfg.gpuAcceleration, true, true⟩ initSucceeds true w h) ∧
    (Effect.sendAsync w h ∈
        sendNDIFrameEffects ⟨true, true, false, cfg.gpuAcceleration, true, true⟩ initSucceeds true w h) ∧
    (Effect.sendSync w h ∉
        sendNDIFrameEffects ⟨true, true, false, cfg.gpuAcceleration, true, true⟩ initSucceeds true w h) := by
  obtain ⟨e, ni, hdr, gpu, asy, opt⟩ := cfg
  refine ⟨fun w2 h2 => ?_, ?_, ?_, ?_⟩ <;>
  · cases e <;> cases ni <;> cases hdr <;> cases asy <;> cases opt <;> cases initSucceeds <;>
      simp [sendNDIFrameEffects, sendHDRFrameEffects, sendSDRFrameEffects]

/-- C8 (failing part): frames with zero or negative width or height are not
rejected at the frame-sender boundary: a 0 by 1 frame and a -5 by -3 frame
still run the conversion and reach the synchronous transport send call in
the enabled, initialized, synchronous SDR configuration. -/
theorem dims_unchecked_counterexample :
    Effect.convertUYVY 0 1 ∈ sendNDIFrameEffects ⟨true, true, false, false, false, true⟩ true true 0 1 ∧
    Effect.sendSync 0 1 ∈ sendNDIFrameEffects ⟨true, true, false, false, false, true⟩ true true 0 1 ∧
    Effect.sendSync (-5) (-3) ∈
      sendNDIFrameEffects ⟨true, true, false, false, false, true⟩ true true (-5) (-3) := by
  refine ⟨by decide, by decide, by decide⟩

/-- C8 (amended): the send paths never inspect width or height: a frame of
any dimensions, including zero or negative ones, reaches the transport send
primitives exactly when a 1 by 1 frame would in the same configuration. -/
theorem dims_never_validated (cfg : Config) (initSucceeds hasImage : Bool) (w h : Int) :
    (Effect.sendSync w h ∈ sendNDIFrameEffects cfg initSucceeds hasImage w h ↔
      Effect.sendSync 1 1 ∈ sendNDIFrameEffects cfg initSucceeds hasImage 1 1) ∧
    (Effect.sendAsync w h ∈ sendNDIFrameEffects cfg initSucceeds hasImage w h ↔
      Effect.sendAsync 1 1 ∈ sendNDIFrameEffects cfg initSucceeds hasImage 1 1) := by
  obtain ⟨e, ni, hdr, gpu, asy, opt⟩ := cfg
  cases e <;> cases ni <;> cases hdr <;> cases asy <;> cases opt <;>
    cases initSucceeds <;> cases hasImage <;>
    simp [sendNDIFrameEffects, sendHDRFrameEffects, sendSDRFrameEffects]

/-! ## HDR metadata string (createHDRMetadata, lines 669-703)

The builder maps the color space to NDI primaries and matrix, the transfer
function to the NDI transfer tag, and concatenates one ndi_color_info
element.  The maxCLL and maxFALL configuration values are in scope in the
source (fields of the instance data) but are not written into the string. -/

/-- The metadata string built for outgoing HDR frames, translated from the
source; maxCLL and maxFALL are parameters of the configuration but the
builder never uses them. -/
def createHDRMetadata (colorSpace transferFunction : String) (maxCLL maxFALL : ℚ) : String :=
  "<ndi_color_info primaries=\"" ++
    (if colorSpace = "rec2020" then "bt_2020"
     else if colorSpace = "p3" then "bt_2020" else "bt_709") ++
  "\" transfer=\"" ++
    (if transferFunction = "pq" then "bt_2100_pq"
     else if transferFunction = "hlg" then "bt_2100_hlg" else "bt_709") ++
  "\" matrix=\"" ++
    (if colorSpace = "rec2020" then "bt_2020"
     else if colorSpace = "p3" then "bt_2020" else "bt_709") ++
  "\" />"

/-- C7 (failing part): the metadata string built for a Rec.2020 PQ
configuration with maxCLL 1000 and maxFALL 400 carries primaries, transfer
and matrix but no maxCLL and no maxFALL field, so the claim that all five
fields are carried is false. -/
theorem metadata_misses_light_levels :
    createHDRMetadata "rec2020" "pq" 1000 400 =
      "<ndi_color_info primaries=\"bt_2020\" transfer=\"bt_2100_pq\" matrix=\"bt_2020\" />" ∧
    ¬ ("maxCLL".toList <:+: (createHDRMetadata "rec2020" "pq" 1000 400).toList) ∧
    ¬ ("maxFALL".toList <:+: (createHDRMetadata "rec2020" "pq" 1000 400).toList) := by
  refine ⟨by decide, by decide, by decide⟩

/-- C7 (amended): for every colorimetry configuration the metadata string
carries exactly three fields, primaries, transfer function and matrix;
maxCLL and maxFALL never appear in it. -/
theorem metadata_fields (colorSpace transferFunction : String) (maxCLL maxFALL : ℚ) :
    ("primaries=".toList <:+: (createHDRMetadata colorSpace transferFunction maxCLL maxFALL).toList) ∧
    ("transfer=".toList <:+: (createHDRMetadata colorSpace transferFunction maxCLL maxFALL).toList) ∧
    ("matrix=".toList <:+: (createHDRMetadata colorSpace transferFunction maxCLL maxFALL).toList) ∧
    ¬ ("maxCLL".toList <:+: (createHDRMetadata colorSpace transferFunction maxCLL maxFALL).toList) ∧
    ¬ ("maxFALL".toList <:+: (createHDRMetadata colorSpace transferFunction maxCLL maxFALL).toList) := by
  unfold createHDRMetadata
  split_ifs <;> refine ⟨by decide, by decide, by decide, by decide, by decide⟩

end NDIOutput
